import Mathlib

/-!
Shallow embedding of `src/Todo_manager.py` (a todo manager with time-block
conflict detection) and proofs about its operations.

Python `datetime.datetime` values are modelled by the `DateTime` structure
below with the same componentwise lexicographic order; Python machine-level
concerns (object identity from `id(self)`, file handles) are modelled by
explicit parameters (`fid` fresh-identity arguments, a `Snapshot` of the
storage file).
-/

/-- Model of Python `datetime.datetime`: a calendar point in time.
Comparison in Python is lexicographic on
(year, month, day, hour, minute, second, microsecond). -/
structure DateTime where
  year : Nat
  month : Nat
  day : Nat
  hour : Nat
  minute : Nat
  second : Nat
  microsecond : Nat
  deriving DecidableEq, Repr

/-- Python `a < b` on datetimes: lexicographic componentwise comparison. -/
def DateTime.blt (a b : DateTime) : Bool :=
  if a.year ≠ b.year then decide (a.year < b.year)
  else if a.month ≠ b.month then decide (a.month < b.month)
  else if a.day ≠ b.day then decide (a.day < b.day)
  else if a.hour ≠ b.hour then decide (a.hour < b.hour)
  else if a.minute ≠ b.minute then decide (a.minute < b.minute)
  else if a.second ≠ b.second then decide (a.second < b.second)
  else decide (a.microsecond < b.microsecond)

/-- Python `datetime.datetime.max = 9999-12-31 23:59:59.999999`. -/
def DateTime.maxValue : DateTime := ⟨9999, 12, 31, 23, 59, 59, 999999⟩

/-- Gregorian leap-year test, as in Python's `datetime` module. -/
def isLeapYear (y : Nat) : Bool := y % 4 == 0 && (y % 100 != 0 || y % 400 == 0)

/-- Number of days in a month (month 1..12), as in Python's `datetime`. -/
def daysInMonth (y m : Nat) : Nat :=
  if m = 1 then 31
  else if m = 2 then (if isLeapYear y then 29 else 28)
  else if m = 3 then 31
  else if m = 4 then 30
  else if m = 5 then 31
  else if m = 6 then 30
  else if m = 7 then 31
  else if m = 8 then 31
  else if m = 9 then 30
  else if m = 10 then 31
  else if m = 11 then 30
  else if m = 12 then 31
  else 0

/-- Days in the months strictly before month `m` of year `y`. -/
def daysBeforeMonth (y m : Nat) : Nat :=
  (List.range m).foldl (fun acc k => acc + daysInMonth y k) 0

/-- Python `date.toordinal`: day number in the proleptic Gregorian calendar,
with 0001-01-01 having ordinal 1. -/
def DateTime.toOrdinal (dt : DateTime) : Nat :=
  (dt.year - 1) * 365 + (dt.year - 1) / 4 - (dt.year - 1) / 100 + (dt.year - 1) / 400
    + daysBeforeMonth dt.year dt.month + dt.day

/-- Total microseconds since the calendar epoch; used to model
`timedelta.total_seconds()` comparisons exactly (the values compared in the
source have zero seconds/microseconds, so float rounding never matters). -/
def DateTime.toMicro (dt : DateTime) : Nat :=
  ((dt.toOrdinal * 24 + dt.hour) * 60 + dt.minute) * 60 * 1000000
    + dt.second * 1000000 + dt.microsecond

/-- Validity check performed by Python's `datetime`/`date` constructors
(raises `ValueError` when violated, e.g. inside `strptime`). -/
def validDate (dt : DateTime) : Bool :=
  decide (1 ≤ dt.year ∧ dt.year ≤ 9999 ∧ 1 ≤ dt.month ∧ dt.month ≤ 12 ∧
    1 ≤ dt.day ∧ dt.day ≤ daysInMonth dt.year dt.month ∧
    dt.hour ≤ 23 ∧ dt.minute ≤ 59 ∧ dt.second ≤ 59 ∧ dt.microsecond ≤ 999999)

/-- Model of the Python class `TodoItem` (`src/Todo_manager.py`).
`id` is Python's `id(self)`: a fresh identity chosen at construction time,
modelled as an explicit value. -/
structure TodoItem where
  id : Nat
  title : String
  deadline : Option DateTime
  priority : Int
  completed : Bool
  time_block_start : Option DateTime
  time_block_end : Option DateTime
  deriving DecidableEq, Repr

instance : Inhabited TodoItem := ⟨⟨0, "", none, 3, false, none, none⟩⟩

/-- `TodoItem.has_time_conflict`: returns `False` when either item lacks a
complete time block, else the half-open interval overlap test
`self.time_block_start < other.time_block_end and
 self.time_block_end > other.time_block_start`. -/
def TodoItem.has_time_conflict (self other : TodoItem) : Bool :=
  match self.time_block_start, self.time_block_end with
  | some s1, some e1 =>
    match other.time_block_start, other.time_block_end with
    | some s2, some e2 => s1.blt e2 && s2.blt e1
    | _, _ => false
  | _, _ => false

/-- Numeric value of a decimal digit character. -/
def dv (c : Char) : Nat := c.toNat - 48

/-- Decimal digit test (codepoints 48-57), as in the regex class `\d`
restricted to ASCII, which is all the source's inputs use. -/
def isDigitC (c : Char) : Bool := decide (48 ≤ c.toNat ∧ c.toNat ≤ 57)

/-- Character of a decimal digit value. -/
def digitChar (n : Nat) : Char := Char.ofNat (48 + n)

/-- Two-digit zero-padded decimal, as `%02d` prints values below 100. -/
def pad2 (n : Nat) : String := String.mk [digitChar (n / 10 % 10), digitChar (n % 10)]

/-- Four-digit zero-padded decimal, as `%04d` prints values below 10000. -/
def pad4 (n : Nat) : String :=
  String.mk [digitChar (n / 1000 % 10), digitChar (n / 100 % 10),
    digitChar (n / 10 % 10), digitChar (n % 10)]

/-- Six-digit zero-padded decimal, as `%06d` prints values below 1000000. -/
def pad6 (n : Nat) : String :=
  String.mk [digitChar (n / 100000 % 10), digitChar (n / 10000 % 10),
    digitChar (n / 1000 % 10), digitChar (n / 100 % 10),
    digitChar (n / 10 % 10), digitChar (n % 10)]

/-- Python `datetime.isoformat()`: `YYYY-MM-DDTHH:MM:SS`, with a
`.ffffff` microsecond suffix only when the microsecond field is nonzero. -/
def isoformat (dt : DateTime) : String :=
  pad4 dt.year ++ "-" ++ pad2 dt.month ++ "-" ++ pad2 dt.day ++ "T" ++
  pad2 dt.hour ++ ":" ++ pad2 dt.minute ++ ":" ++ pad2 dt.second ++
  (if dt.microsecond = 0 then "" else "." ++ pad6 dt.microsecond)

/-- Python `datetime.fromisoformat`: parses `YYYY-MM-DD`, optionally followed
by a separator (`T` or space) and `HH:MM`, `HH:MM:SS` or `HH:MM:SS.ffffff`;
`none` models the `ValueError` raised on anything else or on an invalid
calendar date. This covers the whole image of `isoformat` losslessly. -/
def fromisoformat (s : String) : Option DateTime :=
  let build : DateTime → Option DateTime := fun dt => if validDate dt then some dt else none
  match s.data with
  | [y1, y2, y3, y4, '-', mo1, mo2, '-', d1, d2] =>
    if [y1, y2, y3, y4, mo1, mo2, d1, d2].all isDigitC then
      build ⟨1000 * dv y1 + 100 * dv y2 + 10 * dv y3 + dv y4,
        10 * dv mo1 + dv mo2, 10 * dv d1 + dv d2, 0, 0, 0, 0⟩
    else none
  | [y1, y2, y3, y4, '-', mo1, mo2, '-', d1, d2, sep, h1, h2, ':', mi1, mi2] =>
    if (sep = 'T' ∨ sep = ' ') ∧
        ([y1, y2, y3, y4, mo1, mo2, d1, d2, h1, h2, mi1, mi2].all isDigitC) = true then
      build ⟨1000 * dv y1 + 100 * dv y2 + 10 * dv y3 + dv y4,
        10 * dv mo1 + dv mo2, 10 * dv d1 + dv d2,
        10 * dv h1 + dv h2, 10 * dv mi1 + dv mi2, 0, 0⟩
    else none
  | [y1, y2, y3, y4, '-', mo1, mo2, '-', d1, d2, sep, h1, h2, ':', mi1, mi2, ':', s1, s2] =>
    if (sep = 'T' ∨ sep = ' ') ∧
        ([y1, y2, y3, y4, mo1, mo2, d1, d2, h1, h2, mi1, mi2, s1, s2].all isDigitC) = true then
      build ⟨1000 * dv y1 + 100 * dv y2 + 10 * dv y3 + dv y4,
        10 * dv mo1 + dv mo2, 10 * dv d1 + dv d2,
        10 * dv h1 + dv h2, 10 * dv mi1 + dv mi2, 10 * dv s1 + dv s2, 0⟩
    else none
  | [y1, y2, y3, y4, '-', mo1, mo2, '-', d1, d2, sep, h1, h2, ':', mi1, mi2, ':', s1, s2,
      '.', u1, u2, u3, u4, u5, u6] =>
    if (sep = 'T' ∨ sep = ' ') ∧
        ([y1, y2, y3, y4, mo1, mo2, d1, d2, h1, h2, mi1, mi2, s1, s2,
          u1, u2, u3, u4, u5, u6].all isDigitC) = true then
      build ⟨1000 * dv y1 + 100 * dv y2 + 10 * dv y3 + dv y4,
        10 * dv mo1 + dv mo2, 10 * dv d1 + dv d2,
        10 * dv h1 + dv h2, 10 * dv mi1 + dv mi2, 10 * dv s1 + dv s2,
        100000 * dv u1 + 10000 * dv u2 + 1000 * dv u3 + 100 * dv u4 + 10 * dv u5 + dv u6⟩
    else none
  | _ => none

/-- Model of the JSON values Python's `json` module passes around. -/
inductive Json where
  | null : Json
  | bool : Bool → Json
  | num : Int → Json
  | str : String → Json
  | arr : List Json → Json
  | obj : List (String × Json) → Json
  deriving Repr

/-- Python truthiness of a JSON value (`None`, `False`, `0`, `""`, `[]`, `{}`
are falsy, everything else truthy). -/
def Json.truthy : Json → Bool
  | .null => false
  | .bool b => b
  | .num n => decide (n ≠ 0)
  | .str s => decide (s ≠ "")
  | .arr xs => !xs.isEmpty
  | .obj kvs => !kvs.isEmpty

/-- Dictionary key lookup (Python dict keys are unique; first match). -/
def lookupKV : List (String × Json) → String → Option Json
  | [], _ => none
  | (k, v) :: rest, key => if k = key then some v else lookupKV rest key

/-- Python `data[key]`: the value, or a `KeyError` when the key is absent. -/
def getKey (kvs : List (String × Json)) (key : String) : Except String Json :=
  match lookupKV kvs key with
  | some v => .ok v
  | none => .error ("KeyError: " ++ key)

/-- Serialization of an optional datetime field in `TodoItem.to_dict`:
`self.f.isoformat() if self.f else None` (datetimes are always truthy). -/
def optIso : Option DateTime → Json
  | some dt => .str (isoformat dt)
  | none => .null

/-- `TodoItem.to_dict`: the serializable record. Note the `id` field IS
written out here. -/
def TodoItem.to_dict (t : TodoItem) : Json :=
  .obj [("id", .num (t.id : Int)),
        ("title", .str t.title),
        ("deadline", optIso t.deadline),
        ("priority", .num t.priority),
        ("completed", .bool t.completed),
        ("time_block_start", optIso t.time_block_start),
        ("time_block_end", optIso t.time_block_end)]

/-- Deserialization of an optional datetime field in `TodoItem.from_dict`:
`datetime.fromisoformat(data[k]) if data[k] else None`. A falsy value gives
`None`; a truthy non-string raises `TypeError`; an unparsable string raises
`ValueError` (neither error is caught by the source). -/
def jsonToOptDT (v : Json) : Except String (Option DateTime) :=
  if v.truthy then
    match v with
    | .str s =>
      match fromisoformat s with
      | some dt => .ok (some dt)
      | none => .error "ValueError: invalid isoformat string"
    | _ => .error "TypeError: fromisoformat argument must be str"
  else .ok none

/-- `TodoItem.from_dict`: rebuilds an item from a record. Crucially, the
`"id"` key is never read: the constructor assigns a fresh identity
(`id(self)` in Python), modelled by the explicit parameter `fid`.
Keyword arguments are evaluated in source order (title, deadline, priority,
completed, time_block_start, time_block_end), so a missing key raises
`KeyError` at the first absent field. Field values are checked against the
record's documented types; Python being dynamically typed would defer some
such type errors, a difference no theorem below exercises. -/
def TodoItem.from_dict (data : Json) (fid : Nat) : Except String TodoItem :=
  match data with
  | .obj kvs => do
    let titleJ ← getKey kvs "title"
    let title ← (match titleJ with
      | .str s => Except.ok s
      | _ => Except.error "TypeError: title")
    let dlJ ← getKey kvs "deadline"
    let dl ← jsonToOptDT dlJ
    let prJ ← getKey kvs "priority"
    let pr ← (match prJ with
      | Json.num n => Except.ok n
      | _ => Except.error "TypeError: priority")
    let cJ ← getKey kvs "completed"
    let c ← (match cJ with
      | Json.bool b => Except.ok b
      | _ => Except.error "TypeError: completed")
    let tbsJ ← getKey kvs "time_block_start"
    let tbs ← jsonToOptDT tbsJ
    let tbeJ ← getKey kvs "time_block_end"
    let tbe ← jsonToOptDT tbeJ
    .ok ⟨fid, title, dl, pr, c, tbs, tbe⟩
  | _ => .error "TypeError: string indices must be integers"

/-- State of the storage file as seen by `TodoManager.load_todos`:
absent, present but not decodable as JSON, or decoded to a JSON value. -/
inductive Snapshot where
  | missing : Snapshot
  | invalidJson : Snapshot
  | parsed : Json → Snapshot

/-- Sequential `[TodoItem.from_dict(item) for item in data]`: the first
error aborts the whole comprehension. Fresh identities are supplied by
position. -/
def loadItems : List Json → Nat → Except String (List TodoItem)
  | [], _ => .ok []
  | j :: js, i => do
    let t ← TodoItem.from_dict j i
    let ts ← loadItems js (i + 1)
    .ok (t :: ts)

/-- `TodoManager.load_todos`: `FileNotFoundError` and `json.JSONDecodeError`
are caught and give `[]`; any error raised while iterating the decoded value
or rebuilding items (`KeyError`, `TypeError`, `ValueError`) propagates.
Iterating a Python dict yields its keys, iterating a string yields its
one-character substrings, and iterating `None`/numbers/booleans raises
`TypeError`. -/
def load_todos : Snapshot → Except String (List TodoItem)
  | .missing => .ok []
  | .invalidJson => .ok []
  | .parsed (.arr xs) => loadItems xs 0
  | .parsed (.obj kvs) => loadItems (kvs.map (fun kv => Json.str kv.1)) 0
  | .parsed (.str s) => loadItems (s.data.map (fun c => Json.str (String.mk [c]))) 0
  | .parsed _ => .error "TypeError: object is not iterable"

/-- In-memory manager state: the `todos` list plus the content last written
to the storage file (a list of serialized records, as `json.dump` writes). -/
structure ManagerState where
  todos : List TodoItem
  file : List Json
  deriving Repr

/-- `TodoManager.save_todos`: rewrites the file with the serialization of
the current list. -/
def save_todos (st : ManagerState) : ManagerState :=
  { st with file := st.todos.map TodoItem.to_dict }

/-- `TodoManager.add_todo`: scans existing items in order; at the first
`todo.has_time_conflict(existing)` it reports the conflict (returning
`False` and the colliding title) without touching state; otherwise appends
and saves. Result: (new state, returned boolean, reported conflict title). -/
def add_todo (st : ManagerState) (todo : TodoItem) : ManagerState × Bool × Option String :=
  match st.todos.find? (fun existing => todo.has_time_conflict existing) with
  | some existing => (st, false, some existing.title)
  | none => (save_todos { st with todos := st.todos ++ [todo] }, true, none)

/-- Flip the `completed` flag of the element at position `i` (in-place list
mutation `self.todos[index].completed = not ...`). -/
def toggleAt : List TodoItem → Nat → List TodoItem
  | [], _ => []
  | t :: ts, 0 => { t with completed := !t.completed } :: ts
  | t :: ts, Nat.succ n => t :: toggleAt ts n

/-- `TodoManager.toggle_complete`: guarded by `0 <= index < len(self.todos)`;
flips the flag and saves on success, otherwise does nothing. -/
def toggle_complete (st : ManagerState) (index : Int) : ManagerState :=
  if 0 ≤ index ∧ index < (st.todos.length : Int) then
    save_todos { st with todos := toggleAt st.todos index.toNat }
  else st

/-- `TodoManager.delete_todo`: guarded by `0 <= index < len(self.todos)`;
removes the element and saves on success, otherwise does nothing. -/
def delete_todo (st : ManagerState) (index : Int) : ManagerState :=
  if 0 ≤ index ∧ index < (st.todos.length : Int) then
    save_todos { st with todos := st.todos.eraseIdx index.toNat }
  else st

/-- Stable insertion used to model Python's stable `sorted`: `a` is placed
before the first element `b` with `le a b`. -/
def insertLe {α : Type} (le : α → α → Bool) (a : α) : List α → List α
  | [] => [a]
  | b :: bs => if le a b then a :: b :: bs else b :: insertLe le a bs

/-- Python `sorted(xs, key=..., reverse=...)`: a stable sort — ascending by
the key's `<` when `reverse` is false, descending when true, equal keys
keeping their original relative order. A stable sort's output is uniquely
determined by the strict comparison, so any stable algorithm models it. -/
def pySorted {α : Type} (lt : α → α → Bool) (reverse : Bool) (xs : List α) : List α :=
  let le : α → α → Bool := fun a b => if reverse then !(lt a b) else !(lt b a)
  xs.foldr (insertLe le) []

/-- `TodoManager.list_todos`: display order. `get_sort_key` gives the
priority for `"priority"`, the deadline (or `datetime.max` when absent) for
`"deadline"`, the time-block start (or `datetime.max`) for `"time"`, and the
item id for any other key; the list is then sorted with
`reverse=sort_by != "priority"`. -/
def list_todos (todos : List TodoItem) (sort_by : String) : List TodoItem :=
  let lt : TodoItem → TodoItem → Bool :=
    if sort_by = "priority" then fun a b => decide (a.priority < b.priority)
    else if sort_by = "deadline" then
      fun a b => (a.deadline.getD DateTime.maxValue).blt (b.deadline.getD DateTime.maxValue)
    else if sort_by = "time" then
      fun a b => (a.time_block_start.getD DateTime.maxValue).blt
        (b.time_block_start.getD DateTime.maxValue)
    else fun a b => decide (a.id < b.id)
  pySorted lt (sort_by != "priority") todos

/-- One user-level store operation. -/
inductive Op where
  | add : TodoItem → Op
  | toggle : Int → Op
  | delete : Int → Op

/-- Apply one operation to the manager state (a failed `add` or an
out-of-range index leaves the state as the source leaves it). -/
def step (st : ManagerState) : Op → ManagerState
  | .add t => (add_todo st t).1
  | .toggle i => toggle_complete st i
  | .delete i => delete_todo st i

/-- The empty store (fresh manager with no persisted items). -/
def emptyState : ManagerState := ⟨[], []⟩

/-- Run a sequence of operations from the empty store. -/
def run (ops : List Op) : ManagerState := ops.foldl step emptyState

/-- Regex alternative `2[0-3]|[0-1]\d|\d` compiled for `%H` by Python's
`_strptime`, as the list of prefix matches in backtracking order
(value, remaining input). Note a single digit is accepted. -/
def hourParses : List Char → List (Nat × List Char)
  | a :: b :: rest =>
    (if a.toNat = 50 ∧ 48 ≤ b.toNat ∧ b.toNat ≤ 51 then [(20 + dv b, rest)] else []) ++
    (if (a.toNat = 48 ∨ a.toNat = 49) ∧ isDigitC b = true then [(10 * dv a + dv b, rest)] else []) ++
    (if isDigitC a then [(dv a, b :: rest)] else [])
  | [a] => if isDigitC a then [(dv a, [])] else []
  | [] => []

/-- Regex alternative `[0-5]\d|\d` compiled for `%M`. -/
def minuteParses : List Char → List (Nat × List Char)
  | a :: b :: rest =>
    (if 48 ≤ a.toNat ∧ a.toNat ≤ 53 ∧ isDigitC b = true then [(10 * dv a + dv b, rest)] else []) ++
    (if isDigitC a then [(dv a, b :: rest)] else [])
  | [a] => if isDigitC a then [(dv a, [])] else []
  | [] => []

/-- Regex alternative `1[0-2]|0[1-9]|[1-9]` compiled for `%m`. -/
def monthParses : List Char → List (Nat × List Char)
  | a :: b :: rest =>
    (if a.toNat = 49 ∧ 48 ≤ b.toNat ∧ b.toNat ≤ 50 then [(10 + dv b, rest)] else []) ++
    (if a.toNat = 48 ∧ 49 ≤ b.toNat ∧ b.toNat ≤ 57 then [(dv b, rest)] else []) ++
    (if 49 ≤ a.toNat ∧ a.toNat ≤ 57 then [(dv a, b :: rest)] else [])
  | [a] => if 49 ≤ a.toNat ∧ a.toNat ≤ 57 then [(dv a, [])] else []
  | [] => []

/-- Regex alternative `3[01]|[1-2]\d|0[1-9]|[1-9]` compiled for `%d`. -/
def dayParses : List Char → List (Nat × List Char)
  | a :: b :: rest =>
    (if a.toNat = 51 ∧ 48 ≤ b.toNat ∧ b.toNat ≤ 49 then [(30 + dv b, rest)] else []) ++
    (if (a.toNat = 49 ∨ a.toNat = 50) ∧ isDigitC b = true then [(10 * dv a + dv b, rest)] else []) ++
    (if a.toNat = 48 ∧ 49 ≤ b.toNat ∧ b.toNat ≤ 57 then [(dv b, rest)] else []) ++
    (if 49 ≤ a.toNat ∧ a.toNat ≤ 57 then [(dv a, b :: rest)] else [])
  | [a] => if 49 ≤ a.toNat ∧ a.toNat ≤ 57 then [(dv a, [])] else []
  | [] => []

/-- Regex `\d\d\d\d` compiled for `%Y`: exactly four digits. -/
def yearParses : List Char → List (Nat × List Char)
  | a :: b :: c :: d :: rest =>
    if isDigitC a ∧ isDigitC b ∧ isDigitC c ∧ isDigitC d = true then
      [(1000 * dv a + 100 * dv b + 10 * dv c + dv d, rest)]
    else []
  | _ => []

/-- A literal character in the compiled format regex. -/
def litP (c : Char) (cs : List Char) : List (List Char) :=
  match cs with
  | x :: rest => if x = c then [rest] else []
  | [] => []

/-- Whitespace characters matched by the regex class `\s` (ASCII part;
the source's inputs only ever contain a space). -/
def isWS (c : Char) : Bool :=
  c = ' ' ∨ c = '\t' ∨ c = '\n' ∨ c = '\r' ∨ c.toNat = 11 ∨ c.toNat = 12

/-- Count of leading whitespace characters. -/
def leadingWS : List Char → Nat
  | c :: rest => if isWS c then leadingWS rest + 1 else 0
  | [] => 0

/-- Greedy `\s+` (whitespace in a strptime format is compiled to `\s+`):
the possible remainders in backtracking order, longest consumption first;
empty when there is no leading whitespace. -/
def spacesP (cs : List Char) : List (List Char) :=
  let n := leadingWS cs
  (List.range n).map (fun i => cs.drop (n - i))

/-- Prefix matches of the compiled regex for `"%H:%M"`, in backtracking
order. -/
def hmMatches (cs : List Char) : List (DateTime × List Char) :=
  hourParses cs |>.flatMap fun hm =>
  litP ':' hm.2 |>.flatMap fun r2 =>
  minuteParses r2 |>.map fun mi => ((⟨1900, 1, 1, hm.1, mi.1, 0, 0⟩ : DateTime), mi.2)

/-- Prefix matches of the compiled regex for `"%Y-%m-%d %H:%M"`. -/
def ymdHMMatches (cs : List Char) : List (DateTime × List Char) :=
  yearParses cs |>.flatMap fun y =>
  litP '-' y.2 |>.flatMap fun r2 =>
  monthParses r2 |>.flatMap fun mo =>
  litP '-' mo.2 |>.flatMap fun r4 =>
  dayParses r4 |>.flatMap fun d =>
  spacesP d.2 |>.flatMap fun r6 =>
  hourParses r6 |>.flatMap fun h =>
  litP ':' h.2 |>.flatMap fun r8 =>
  minuteParses r8 |>.map fun mi => ((⟨y.1, mo.1, d.1, h.1, mi.1, 0, 0⟩ : DateTime), mi.2)

/-- Prefix matches of the compiled regex for `"%Y-%m-%d"`. -/
def ymdMatches (cs : List Char) : List (DateTime × List Char) :=
  yearParses cs |>.flatMap fun y =>
  litP '-' y.2 |>.flatMap fun r2 =>
  monthParses r2 |>.flatMap fun mo =>
  litP '-' mo.2 |>.flatMap fun r4 =>
  dayParses r4 |>.map fun d => ((⟨y.1, mo.1, d.1, 0, 0, 0, 0⟩ : DateTime), d.2)

/-- Prefix matches of the compiled regex for `"%m-%d %H:%M"` (year defaults
to 1900 when `%Y` is absent). -/
def mdHMMatches (cs : List Char) : List (DateTime × List Char) :=
  monthParses cs |>.flatMap fun mo =>
  litP '-' mo.2 |>.flatMap fun r2 =>
  dayParses r2 |>.flatMap fun d =>
  spacesP d.2 |>.flatMap fun r4 =>
  hourParses r4 |>.flatMap fun h =>
  litP ':' h.2 |>.flatMap fun r6 =>
  minuteParses r6 |>.map fun mi => ((⟨1900, mo.1, d.1, h.1, mi.1, 0, 0⟩ : DateTime), mi.2)

/-- Prefix matches of the compiled regex for `"%m-%d"`. -/
def mdMatches (cs : List Char) : List (DateTime × List Char) :=
  monthParses cs |>.flatMap fun mo =>
  litP '-' mo.2 |>.flatMap fun r2 =>
  dayParses r2 |>.map fun d => ((⟨1900, mo.1, d.1, 0, 0, 0, 0⟩ : DateTime), d.2)

/-- `datetime.strptime` outcome from the regex prefix matches: `re.match`
commits to the first (backtracking-preferred) prefix match; then
`_strptime` raises `ValueError` if input remains unconverted, and the
`date`/`datetime` constructors raise `ValueError` on an invalid calendar
date. `none` models `ValueError`. -/
def firstMatchDT (ms : List (DateTime × List Char)) : Option DateTime :=
  match ms with
  | [] => none
  | (dt, rest) :: _ => if rest = [] ∧ validDate dt = true then some dt else none

/-- `datetime.strptime(s, fmt)` for the four formats the source uses
(plus the bare `"%H:%M"` used by the validators). -/
def strptime (s : String) (fmt : String) : Option DateTime :=
  if fmt = "%Y-%m-%d %H:%M" then firstMatchDT (ymdHMMatches s.data)
  else if fmt = "%Y-%m-%d" then firstMatchDT (ymdMatches s.data)
  else if fmt = "%m-%d %H:%M" then firstMatchDT (mdHMMatches s.data)
  else if fmt = "%m-%d" then firstMatchDT (mdMatches s.data)
  else if fmt = "%H:%M" then firstMatchDT (hmMatches s.data)
  else none

/-- `parse_datetime(input_str, has_time)`: the fixed format list, filtered by
`if "%" not in f or "H" not in f` only when `has_time` is false, then the
first format whose `strptime` succeeds (a `ValueError` just moves on to the
next format); `none` when all fail. -/
def parse_datetime (input_str : String) (has_time : Bool) : Option DateTime :=
  let formats := ["%Y-%m-%d %H:%M", "%Y-%m-%d", "%m-%d %H:%M", "%m-%d"]
  let formats := if !has_time then
      formats.filter (fun f => !(f.data.contains '%') || !(f.data.contains 'H'))
    else formats
  formats.foldl (fun acc fmt =>
    match acc with
    | some dt => some dt
    | none => strptime input_str fmt) none

/-- `validate_time_format(time_str)`: true iff
`datetime.strptime(time_str, "%H:%M")` does not raise. -/
def validate_time_format (time_str : String) : Bool :=
  (strptime time_str "%H:%M").isSome

/-- `validate_time_block(start_time, end_time)`: format check on both sides
(with distinct messages), then `start >= end` check, then the
10-minute (600 second) minimum duration check; `(True, ...)` otherwise. -/
def validate_time_block (start_time end_time : String) : Bool × String :=
  if !validate_time_format start_time then
    (false, "开始时间 '" ++ start_time ++ "' 格式无效，请使用 HH:MM 格式（例如 14:30）")
  else if !validate_time_format end_time then
    (false, "结束时间 '" ++ end_time ++ "' 格式无效，请使用 HH:MM 格式（例如 15:30）")
  else
    match strptime start_time "%H:%M", strptime end_time "%H:%M" with
    | some s, some e =>
      if !(s.blt e) then (false, "开始时间必须早于结束时间")
      else if (e.toMicro : Int) - (s.toMicro : Int) < 600 * 1000000 then
        (false, "时间块长度不能少于10分钟")
      else (true, "时间块有效")
    | _, _ => (false, "时间解析错误: ")

/-! ### Characterization of the `%H:%M` validator -/

/-- Modelled from the spec's amended claim for `validate_time_format`:
accepted strings are `hour ':' minute` with the hour one digit, or two
digits valued 00-23, and the minute one digit, or two digits valued 00-59
(zero padding is not required). -/
def hm_specL : List Char → Bool
  | [a, b, c] => isDigitC a && b = ':' && isDigitC c
  | [a, b, c, d] =>
    (isDigitC a && b = ':' && (isDigitC c && isDigitC d && decide (10 * dv c + dv d ≤ 59))) ||
    ((isDigitC a && isDigitC b && decide (10 * dv a + dv b ≤ 23)) && c = ':' && isDigitC d)
  | [a, b, c, d, e] =>
    (isDigitC a && isDigitC b && decide (10 * dv a + dv b ≤ 23)) && c = ':' &&
    (isDigitC d && isDigitC e && decide (10 * dv d + dv e ≤ 59))
  | _ => false

/-- String-level version of [hm_specL]. -/
def hm_spec (s : String) : Bool := hm_specL s.data

theorem strptime_hm (s : String) :
    strptime s "%H:%M" = firstMatchDT (hmMatches s.data) := rfl

set_option maxHeartbeats 4000000 in
theorem hm_equiv2 (a b : Char) : (firstMatchDT (hmMatches [a, b])).isSome = false := by
  simp only [hmMatches, hourParses, minuteParses, litP, firstMatchDT]
  split_ifs <;>
    (try simp only [List.flatMap_cons, List.flatMap_nil, List.append_nil, List.nil_append,
      List.cons_append, List.map_cons, List.map_nil, List.singleton_append]) <;>
    (try split_ifs) <;>
    (try simp only [List.flatMap_cons, List.flatMap_nil, List.append_nil, List.nil_append,
      List.cons_append, List.map_cons, List.map_nil, List.singleton_append]) <;>
    (try split_ifs) <;>
    (try subst_vars) <;>
    (try simp only [isDigitC, dv, validDate, daysInMonth, isLeapYear, decide_eq_true_eq,
      not_and, not_or, List.cons_ne_nil, false_and, and_true, true_and, and_false,
      Option.isSome_none, Option.isSome_some, Bool.and_eq_true, Bool.or_eq_true,
      Bool.true_eq, Bool.false_eq, Bool.and_eq_false_iff, Bool.or_eq_false_iff,
      decide_eq_false_iff_not, Char.reduceEq, Char.reduceToNat, Nat.reduceLeDiff] at *) <;>
    (try omega) <;>
    (try (intros; subst_vars; simp_all)) <;>
    (try omega)

set_option maxHeartbeats 4000000 in
theorem hm_equiv3 (a b c : Char) :
    (firstMatchDT (hmMatches [a, b, c])).isSome = hm_specL [a, b, c] := by
  simp only [hmMatches, hourParses, minuteParses, litP, firstMatchDT, hm_specL]
  split_ifs <;>
    (try simp only [List.flatMap_cons, List.flatMap_nil, List.append_nil, List.nil_append,
      List.cons_append, List.map_cons, List.map_nil, List.singleton_append]) <;>
    (try split_ifs) <;>
    (try simp only [List.flatMap_cons, List.flatMap_nil, List.append_nil, List.nil_append,
      List.cons_append, List.map_cons, List.map_nil, List.singleton_append]) <;>
    (try split_ifs) <;>
    (try simp only [List.flatMap_cons, List.flatMap_nil, List.append_nil, List.nil_append,
      List.cons_append, List.map_cons, List.map_nil, List.singleton_append]) <;>
    (try split_ifs) <;>
    (try subst_vars) <;>
    (try simp only [isDigitC, dv, validDate, daysInMonth, isLeapYear, decide_eq_true_eq,
      not_and, not_or, List.cons_ne_nil, false_and, and_true, true_and, and_false,
      Option.isSome_none, Option.isSome_some, Bool.and_eq_true, Bool.or_eq_true,
      Bool.true_eq, Bool.false_eq, Bool.and_eq_false_iff, Bool.or_eq_false_iff,
      decide_eq_false_iff_not, Char.reduceEq, Char.reduceToNat, Nat.reduceLeDiff] at *) <;>
    (try omega) <;>
    (try (intros; subst_vars; simp_all)) <;>
    (try omega)

set_option maxHeartbeats 4000000 in
theorem hm_equiv4 (a b c d : Char) :
    (firstMatchDT (hmMatches [a, b, c, d])).isSome = hm_specL [a, b, c, d] := by
  simp only [hmMatches, hourParses, minuteParses, litP, firstMatchDT, hm_specL]
  split_ifs <;>
    (try simp only [List.flatMap_cons, List.flatMap_nil, List.append_nil, List.nil_append,
      List.cons_append, List.map_cons, List.map_nil, List.singleton_append]) <;>
    (try split_ifs) <;>
    (try simp only [List.flatMap_cons, List.flatMap_nil, List.append_nil, List.nil_append,
      List.cons_append, List.map_cons, List.map_nil, List.singleton_append]) <;>
    (try split_ifs) <;>
    (try simp only [List.flatMap_cons, List.flatMap_nil, List.append_nil, List.nil_append,
      List.cons_append, List.map_cons, List.map_nil, List.singleton_append]) <;>
    (try split_ifs) <;>
    (try subst_vars) <;>
    (try simp only [isDigitC, dv, validDate, daysInMonth, isLeapYear, decide_eq_true_eq,
      not_and, not_or, List.cons_ne_nil, false_and, and_true, true_and, and_false,
      Option.isSome_none, Option.isSome_some, Bool.and_eq_true, Bool.or_eq_true,
      Bool.true_eq, Bool.false_eq, Bool.and_eq_false_iff, Bool.or_eq_false_iff,
      decide_eq_false_iff_not, Char.reduceEq, Char.reduceToNat, Nat.reduceLeDiff] at *) <;>
    (try omega) <;>
    (try (intros; subst_vars; simp_all)) <;>
    (try omega)

set_option maxHeartbeats 4000000 in
theorem hm_equiv5 (a b c d e : Char) :
    (firstMatchDT (hmMatches [a, b, c, d, e])).isSome = hm_specL [a, b, c, d, e] := by
  simp only [hmMatches, hourParses, minuteParses, litP, firstMatchDT, hm_specL]
  split_ifs <;>
    (try simp only [List.flatMap_cons, List.flatMap_nil, List.append_nil, List.nil_append,
      List.cons_append, List.map_cons, List.map_nil, List.singleton_append]) <;>
    (try split_ifs) <;>
    (try simp only [List.flatMap_cons, List.flatMap_nil, List.append_nil, List.nil_append,
      List.cons_append, List.map_cons, List.map_nil, List.singleton_append]) <;>
    (try split_ifs) <;>
    (try simp only [List.flatMap_cons, List.flatMap_nil, List.append_nil, List.nil_append,
      List.cons_append, List.map_cons, List.map_nil, List.singleton_append]) <;>
    (try split_ifs) <;>
    (try subst_vars) <;>
    (try simp only [isDigitC, dv, validDate, daysInMonth, isLeapYear, decide_eq_true_eq,
      not_and, not_or, List.cons_ne_nil, false_and, and_true, true_and, and_false,
      Option.isSome_none, Option.isSome_some, Bool.and_eq_true, Bool.or_eq_true,
      Bool.true_eq, Bool.false_eq, Bool.and_eq_false_iff, Bool.or_eq_false_iff,
      decide_eq_false_iff_not, Char.reduceEq, Char.reduceToNat, Nat.reduceLeDiff] at *) <;>
    (try omega) <;>
    (try (intros; subst_vars; simp_all)) <;>
    (try omega)

set_option maxHeartbeats 4000000 in
theorem hm_equiv6 (a b c d e f : Char) (rest : List Char) :
    (firstMatchDT (hmMatches (a :: b :: c :: d :: e :: f :: rest))).isSome = false := by
  simp only [hmMatches, hourParses, minuteParses, litP, firstMatchDT]
  split_ifs <;>
    (try simp only [List.flatMap_cons, List.flatMap_nil, List.append_nil, List.nil_append,
      List.cons_append, List.map_cons, List.map_nil, List.singleton_append]) <;>
    (try split_ifs) <;>
    (try simp only [List.flatMap_cons, List.flatMap_nil, List.append_nil, List.nil_append,
      List.cons_append, List.map_cons, List.map_nil, List.singleton_append]) <;>
    (try split_ifs) <;>
    (try simp only [List.flatMap_cons, List.flatMap_nil, List.append_nil, List.nil_append,
      List.cons_append, List.map_cons, List.map_nil, List.singleton_append]) <;>
    (try split_ifs) <;>
    (try subst_vars) <;>
    (try simp only [isDigitC, dv, validDate, daysInMonth, isLeapYear, decide_eq_true_eq,
      not_and, not_or, List.cons_ne_nil, false_and, and_true, true_and, and_false,
      Option.isSome_none, Option.isSome_some, Bool.and_eq_true, Bool.or_eq_true,
      Bool.true_eq, Bool.false_eq, Bool.and_eq_false_iff, Bool.or_eq_false_iff,
      decide_eq_false_iff_not, Char.reduceEq, Char.reduceToNat, Nat.reduceLeDiff] at *) <;>
    (try omega) <;>
    (try (intros; subst_vars; simp_all)) <;>
    (try omega)

/-- The regex-based `%H:%M` parser accepts exactly the strings described by
[hm_specL]. -/
theorem validate_time_format_eq_spec (s : String) : validate_time_format s = hm_spec s := by
  rw [validate_time_format, strptime_hm, hm_spec]
  match h : s.data with
  | [] => rfl
  | [a] =>
    by_cases h3 : isDigitC a <;>
      simp [hmMatches, hourParses, minuteParses, litP, firstMatchDT, hm_specL, h3]
  | [a, b] => rw [hm_equiv2]; rfl
  | [a, b, c] => exact hm_equiv3 a b c
  | [a, b, c, d] => exact hm_equiv4 a b c d
  | [a, b, c, d, e] => exact hm_equiv5 a b c d e
  | a :: b :: c :: d :: e :: f :: rest => rw [hm_equiv6]; rfl

/-! ### Format-selection behaviour of `parse_datetime` -/

/-- Modelled from the spec: try each format in the listed order and return
the first successful parse, absent-value when none match. -/
def tryFormatsSpec (s : String) : List String → Option DateTime
  | [] => none
  | f :: fs =>
    match strptime s f with
    | some dt => some dt
    | none => tryFormatsSpec s fs

theorem foldl_first_some (s : String) (fs : List String) (dt : DateTime) :
    fs.foldl (fun acc fmt =>
      match acc with
      | some dt => some dt
      | none => strptime s fmt) (some dt) = some dt := by
  induction fs with
  | nil => rfl
  | cons f fs ih => simpa using ih

theorem foldl_eq_tryFormats (s : String) (fs : List String) :
    fs.foldl (fun acc fmt =>
      match acc with
      | some dt => some dt
      | none => strptime s fmt) none = tryFormatsSpec s fs := by
  induction fs with
  | nil => rfl
  | cons f fs ih =>
    rw [List.foldl_cons, tryFormatsSpec]
    cases h : strptime s f with
    | none => simpa [h] using ih
    | some dt => simp [h, foldl_first_some]

/-- C6 (corrected): `parse_datetime` filters the format list only when
`expect_time_of_day` is false (to the two date-only formats, in order);
when it is true ALL FOUR formats are tried in order, so a date-only input
such as "2023-12-31" parses via `"%Y-%m-%d"` and yields a value rather than
an absent value. In both modes the first successful parse wins and absence
(never an exception) signals failure. -/
theorem c6_parse_datetime_format_selection :
    (∀ s : String, parse_datetime s true =
      tryFormatsSpec s ["%Y-%m-%d %H:%M", "%Y-%m-%d", "%m-%d %H:%M", "%m-%d"]) ∧
    (∀ s : String, parse_datetime s false = tryFormatsSpec s ["%Y-%m-%d", "%m-%d"]) ∧
    parse_datetime "2023-12-31" false = some ⟨2023, 12, 31, 0, 0, 0, 0⟩ ∧
    parse_datetime "12-31 09:05" true = some ⟨1900, 12, 31, 9, 5, 0, 0⟩ ∧
    parse_datetime "2023-12-31 14:30" true = some ⟨2023, 12, 31, 14, 30, 0, 0⟩ ∧
    parse_datetime "2023-12-31 14:30" false = none ∧
    parse_datetime "14:30" true = none ∧
    parse_datetime "garbage" true = none ∧
    parse_datetime "garbage" false = none := by
  refine ⟨fun s => ?_, fun s => ?_, by decide, by decide, by decide, by decide, by decide,
    by decide, by decide⟩
  · show List.foldl _ none _ = _
    exact foldl_eq_tryFormats s _
  · show List.foldl _ none (List.filter _ _) = _
    have hf : (["%Y-%m-%d %H:%M", "%Y-%m-%d", "%m-%d %H:%M", "%m-%d"].filter
        (fun f => !(f.data.contains '%') || !(f.data.contains 'H'))) = ["%Y-%m-%d", "%m-%d"] := by
      decide
    rw [hf]
    exact foldl_eq_tryFormats s _

/-- C6 counterexample: the claim says a date-only input yields an absent
value when `expect_time_of_day` is true; in fact `"2023-12-31"` parses. -/
theorem c6_counterexample_date_only_with_time :
    parse_datetime "2023-12-31" true = some ⟨2023, 12, 31, 0, 0, 0, 0⟩ := by decide

/-- Success condition of `validate_time_block`, as an iff. -/
theorem validate_time_block_iff (s e : String) : (validate_time_block s e).1 = true ↔
    (validate_time_format s = true ∧ validate_time_format e = true ∧
     ∃ ds de, strptime s "%H:%M" = some ds ∧ strptime e "%H:%M" = some de ∧
       ds.blt de = true ∧ (600 * 1000000 : Int) ≤ (de.toMicro : Int) - (ds.toMicro : Int)) := by
  unfold validate_time_block
  cases hs : strptime s "%H:%M" with
  | none => simp [validate_time_format, hs]
  | some ds =>
    cases he : strptime e "%H:%M" with
    | none => simp [validate_time_format, hs, he]
    | some de =>
      simp only [validate_time_format, hs, he, Option.isSome_some, Bool.not_true,
        Bool.false_eq_true, if_false, ite_false, ite_true]
      cases hlt : ds.blt de with
      | false => simp [hlt]
      | true =>
        split_ifs with hord hdur <;> simp_all <;> omega

/-- C7 (confirmed): `validate_time_block` succeeds exactly when both sides
pass the time-of-day format check and parse, the start is strictly before
the end, and the duration is at least 10 minutes (600 seconds, compared in
exact microseconds); each failure kind carries its own distinct message,
`"14:00"`-`"14:05"` fails on duration, `"14:05"`-`"14:00"` fails on
ordering, and the exact 10-minute block `"14:00"`-`"14:10"` succeeds. -/
theorem c7_validate_time_block_checks :
    (∀ s e : String, (validate_time_block s e).1 = true ↔
      (validate_time_format s = true ∧ validate_time_format e = true ∧
       ∃ ds de, strptime s "%H:%M" = some ds ∧ strptime e "%H:%M" = some de ∧
         ds.blt de = true ∧ (600 * 1000000 : Int) ≤ (de.toMicro : Int) - (ds.toMicro : Int))) ∧
    validate_time_block "14:00" "14:05" = (false, "时间块长度不能少于10分钟") ∧
    validate_time_block "14:05" "14:00" = (false, "开始时间必须早于结束时间") ∧
    validate_time_block "14:00" "14:10" = (true, "时间块有效") ∧
    validate_time_block "9:99" "14:10" =
      (false, "开始时间 '9:99' 格式无效，请使用 HH:MM 格式（例如 14:30）") ∧
    validate_time_block "14:10" "9:99" =
      (false, "结束时间 '9:99' 格式无效，请使用 HH:MM 格式（例如 15:30）") ∧
    ("时间块长度不能少于10分钟" ≠ "开始时间必须早于结束时间" ∧
     ("时间块长度不能少于10分钟" : String) ≠
       "开始时间 '9:99' 格式无效，请使用 HH:MM 格式（例如 14:30）" ∧
     ("开始时间必须早于结束时间" : String) ≠
       "开始时间 '9:99' 格式无效，请使用 HH:MM 格式（例如 14:30）") := by
  exact ⟨validate_time_block_iff, by decide, by decide, by decide, by decide, by decide,
    by decide, by decide, by decide⟩

/-- C8 (corrected): `validate_time_format` delegates to
`strptime(..., "%H:%M")`, whose compiled regex also accepts non-zero-padded
single-digit hours and minutes; it accepts exactly `hour ':' minute` with
the hour one digit or two digits valued 00-23 and the minute one digit or
two digits valued 00-59, so `"9:30"` is accepted, not rejected. -/
theorem c8_time_format_characterization :
    (∀ s : String, validate_time_format s = hm_spec s) ∧
    validate_time_format "9:30" = true ∧
    validate_time_format "9:5" = true ∧
    validate_time_format "14:5" = true ∧
    validate_time_format "09:30" = true ∧
    validate_time_format "23:59" = true ∧
    validate_time_format "00:00" = true ∧
    validate_time_format "24:00" = false ∧
    validate_time_format "23:60" = false ∧
    validate_time_format "1430" = false ∧
    validate_time_format " 9:30" = false :=
  ⟨validate_time_format_eq_spec, by decide, by decide, by decide, by decide, by decide,
    by decide, by decide, by decide, by decide, by decide⟩

/-- C8 counterexample: the claim requires `validate_time_of_day` to reject
the non-zero-padded `"9:30"`; the source accepts it. -/
theorem c8_counterexample_not_strict : validate_time_format "9:30" = true := by decide

/-! ### Store operations: conflict checking, frame conditions, invariant -/

theorem has_time_conflict_symm (a b : TodoItem) :
    a.has_time_conflict b = b.has_time_conflict a := by
  unfold TodoItem.has_time_conflict
  cases a.time_block_start <;> cases a.time_block_end <;>
    cases b.time_block_start <;> cases b.time_block_end <;> simp [Bool.and_comm]

theorem has_time_conflict_completed_left (a b : TodoItem) (c : Bool) :
    TodoItem.has_time_conflict { a with completed := c } b = a.has_time_conflict b := rfl

theorem has_time_conflict_completed_right (a b : TodoItem) (c : Bool) :
    TodoItem.has_time_conflict a { b with completed := c } = a.has_time_conflict b := rfl

/-- Pairwise absence of time conflicts along the list. -/
def NoOverlap (l : List TodoItem) : Prop :=
  l.Pairwise (fun a b => a.has_time_conflict b = false)

theorem noOverlap_append {l : List TodoItem} {t : TodoItem} (h : NoOverlap l)
    (ht : ∀ x ∈ l, t.has_time_conflict x = false) : NoOverlap (l ++ [t]) := by
  rw [NoOverlap, List.pairwise_append]
  refine ⟨h, List.pairwise_singleton _ _, fun a ha b hb => ?_⟩
  have hb' : b = t := by simpa using hb
  subst hb'
  rw [has_time_conflict_symm]
  exact ht a ha

theorem mem_toggleAt {y : TodoItem} {l : List TodoItem} {n : Nat} (hy : y ∈ toggleAt l n) :
    ∃ z ∈ l, y = z ∨ y = { z with completed := !z.completed } := by
  induction l generalizing n with
  | nil => simp [toggleAt] at hy
  | cons x xs ih =>
    cases n with
    | zero =>
      simp only [toggleAt] at hy
      rcases List.mem_cons.mp hy with rfl | hmem
      · exact ⟨x, List.mem_cons_self x xs, Or.inr rfl⟩
      · exact ⟨y, List.mem_cons_of_mem x hmem, Or.inl rfl⟩
    | succ n =>
      simp only [toggleAt] at hy
      rcases List.mem_cons.mp hy with rfl | hmem
      · exact ⟨y, List.mem_cons_self y xs, Or.inl rfl⟩
      · obtain ⟨z, hz, hor⟩ := ih hmem
        exact ⟨z, List.mem_cons_of_mem x hz, hor⟩

theorem noOverlap_toggleAt {l : List TodoItem} (n : Nat) (h : NoOverlap l) :
    NoOverlap (toggleAt l n) := by
  induction l generalizing n with
  | nil => simpa [toggleAt] using h
  | cons x xs ih =>
    rw [NoOverlap, List.pairwise_cons] at h
    cases n with
    | zero =>
      rw [toggleAt, NoOverlap, List.pairwise_cons]
      exact ⟨fun y hy => by rw [has_time_conflict_completed_left]; exact h.1 y hy, h.2⟩
    | succ n =>
      rw [toggleAt, NoOverlap, List.pairwise_cons]
      refine ⟨fun y hy => ?_, ih n h.2⟩
      obtain ⟨z, hz, hor⟩ := mem_toggleAt hy
      rcases hor with rfl | rfl
      · exact h.1 y hz
      · rw [has_time_conflict_completed_right]
        exact h.1 z hz

theorem noOverlap_eraseIdx {l : List TodoItem} (n : Nat) (h : NoOverlap l) :
    NoOverlap (l.eraseIdx n) :=
  List.Pairwise.sublist (List.eraseIdx_sublist l n) h

theorem step_preserves_noOverlap (st : ManagerState) (op : Op) (h : NoOverlap st.todos) :
    NoOverlap ((step st op).todos) := by
  cases op with
  | add t =>
    show NoOverlap (add_todo st t).1.todos
    unfold add_todo
    cases hf : st.todos.find? (fun existing => t.has_time_conflict existing) with
    | some existing => exact h
    | none =>
      have hnone := List.find?_eq_none.mp hf
      exact noOverlap_append h (fun x hx => by
        have := hnone x hx
        simpa using this)
  | toggle i =>
    show NoOverlap (toggle_complete st i).todos
    unfold toggle_complete
    split_ifs with hi
    · exact noOverlap_toggleAt _ h
    · exact h
  | delete i =>
    show NoOverlap (delete_todo st i).todos
    unfold delete_todo
    split_ifs with hi
    · exact noOverlap_eraseIdx _ h
    · exact h

theorem run_noOverlap (ops : List Op) :
    ∀ st : ManagerState, NoOverlap st.todos → NoOverlap ((ops.foldl step st).todos) := by
  induction ops with
  | nil => exact fun st h => h
  | cons op ops ih => exact fun st h => ih (step st op) (step_preserves_noOverlap st op h)

/-- C1 (confirmed): starting from the empty store, after any sequence of
add / toggle_complete / delete operations, any two distinct items of the
store that both carry a complete time block have non-overlapping half-open
intervals: not (a.start < b.end and a.end > b.start). -/
theorem c1_no_overlap_invariant (ops : List Op) :
    ((run ops).todos).Pairwise (fun a b =>
      ∀ sa ea sb eb : DateTime,
        a.time_block_start = some sa → a.time_block_end = some ea →
        b.time_block_start = some sb → b.time_block_end = some eb →
        ¬(sa.blt eb = true ∧ sb.blt ea = true)) := by
  have h : NoOverlap (run ops).todos := by
    apply run_noOverlap
    simp [emptyState, NoOverlap]
  refine h.imp ?_
  intro a b hfalse sa ea sb eb hsa hea hsb heb hcontra
  rw [TodoItem.has_time_conflict, hsa, hea, hsb, heb] at hfalse
  simp only [Bool.and_eq_false_iff] at hfalse
  rcases hfalse with hf | hf <;> simp [hf] at hcontra

/-- C2 (confirmed): when the candidate's time block overlaps some existing
item's block, `add_todo` returns failure with the (first) colliding item's
title, and neither the list nor the persisted file changes; otherwise it
appends the candidate at the end of the canonical order (length + 1) and
rewrites the file with the new serialized list. -/
theorem c2_add_todo_conflict_or_append (st : ManagerState) (t : TodoItem) :
    ((∃ ex ∈ st.todos, t.has_time_conflict ex = true) →
      (add_todo st t).2.1 = false ∧ (add_todo st t).1 = st ∧
      ∃ ex ∈ st.todos, t.has_time_conflict ex = true ∧ (add_todo st t).2.2 = some ex.title) ∧
    ((∀ ex ∈ st.todos, t.has_time_conflict ex = false) →
      (add_todo st t).2.1 = true ∧ (add_todo st t).1.todos = st.todos ++ [t] ∧
      (add_todo st t).1.todos.length = st.todos.length + 1 ∧
      (add_todo st t).2.2 = none ∧
      (add_todo st t).1.file = (st.todos ++ [t]).map TodoItem.to_dict) := by
  unfold add_todo
  cases hf : st.todos.find? (fun existing => t.has_time_conflict existing) with
  | some existing =>
    constructor
    · intro _
      exact ⟨rfl, rfl, existing, List.mem_of_find?_eq_some hf,
        by simpa using List.find?_some hf, rfl⟩
    · intro hall
      have h1 := hall existing (List.mem_of_find?_eq_some hf)
      have h2 : t.has_time_conflict existing = true := by simpa using List.find?_some hf
      rw [h1] at h2
      exact absurd h2 (by simp)
  | none =>
    have hnone := List.find?_eq_none.mp hf
    constructor
    · rintro ⟨ex, hmem, hconf⟩
      have := hnone ex hmem
      simp [hconf] at this
    · intro _
      exact ⟨rfl, rfl, by simp [save_todos], rfl, rfl⟩

/-- Witness for C2: on a concrete store holding a 10:00-11:00 block,
adding an overlapping 10:30-12:00 item is rejected naming the first item,
and adding a block-free item succeeds and appends. -/
theorem c2_add_todo_witness :
    ((add_todo ⟨[⟨1, "writing", none, 3, false, some ⟨2023, 1, 1, 10, 0, 0, 0⟩,
        some ⟨2023, 1, 1, 11, 0, 0, 0⟩⟩], []⟩
      ⟨2, "meeting", none, 3, false, some ⟨2023, 1, 1, 10, 30, 0, 0⟩,
        some ⟨2023, 1, 1, 12, 0, 0, 0⟩⟩).2.1 = false ∧
      (add_todo ⟨[⟨1, "writing", none, 3, false, some ⟨2023, 1, 1, 10, 0, 0, 0⟩,
        some ⟨2023, 1, 1, 11, 0, 0, 0⟩⟩], []⟩
      ⟨2, "meeting", none, 3, false, some ⟨2023, 1, 1, 10, 30, 0, 0⟩,
        some ⟨2023, 1, 1, 12, 0, 0, 0⟩⟩).1 =
        ⟨[⟨1, "writing", none, 3, false, some ⟨2023, 1, 1, 10, 0, 0, 0⟩,
          some ⟨2023, 1, 1, 11, 0, 0, 0⟩⟩], []⟩ ∧
      ∃ ex ∈ [⟨1, "writing", none, 3, false, some ⟨2023, 1, 1, 10, 0, 0, 0⟩,
          some ⟨2023, 1, 1, 11, 0, 0, 0⟩⟩],
        TodoItem.has_time_conflict ⟨2, "meeting", none, 3, false,
          some ⟨2023, 1, 1, 10, 30, 0, 0⟩, some ⟨2023, 1, 1, 12, 0, 0, 0⟩⟩ ex = true ∧
        (add_todo ⟨[⟨1, "writing", none, 3, false, some ⟨2023, 1, 1, 10, 0, 0, 0⟩,
          some ⟨2023, 1, 1, 11, 0, 0, 0⟩⟩], []⟩
        ⟨2, "meeting", none, 3, false, some ⟨2023, 1, 1, 10, 30, 0, 0⟩,
          some ⟨2023, 1, 1, 12, 0, 0, 0⟩⟩).2.2 = some ex.title) ∧
    (add_todo ⟨[⟨1, "writing", none, 3, false, some ⟨2023, 1, 1, 10, 0, 0, 0⟩,
        some ⟨2023, 1, 1, 11, 0, 0, 0⟩⟩], []⟩
      ⟨3, "reading", none, 3, false, none, none⟩).2.1 = true :=
  ⟨(c2_add_todo_conflict_or_append _ _).1
      ⟨_, List.mem_singleton.mpr rfl, by decide⟩,
    ((c2_add_todo_conflict_or_append _ _).2 (by decide)).1⟩

/-- C9 (confirmed): with an index that is not a valid zero-based position
(negative, or at least the length), both `toggle_complete` and
`delete_todo` leave the whole manager state - items, order, length and
the persisted file - untouched. -/
theorem c9_out_of_range_noop (st : ManagerState) (i : Int)
    (h : i < 0 ∨ (st.todos.length : Int) ≤ i) :
    toggle_complete st i = st ∧ delete_todo st i = st := by
  have hguard : ¬(0 ≤ i ∧ i < (st.todos.length : Int)) := by omega
  unfold toggle_complete delete_todo
  rw [if_neg hguard, if_neg hguard]
  exact ⟨rfl, rfl⟩

/-- Witness for C9: index 5 on a one-item store, and index -1. -/
theorem c9_out_of_range_noop_witness :
    (toggle_complete ⟨[⟨1, "a", none, 3, false, none, none⟩], []⟩ 5 =
      ⟨[⟨1, "a", none, 3, false, none, none⟩], []⟩ ∧
     delete_todo ⟨[⟨1, "a", none, 3, false, none, none⟩], []⟩ 5 =
      ⟨[⟨1, "a", none, 3, false, none, none⟩], []⟩) ∧
    (toggle_complete ⟨[⟨1, "a", none, 3, false, none, none⟩], []⟩ (-1) =
      ⟨[⟨1, "a", none, 3, false, none, none⟩], []⟩ ∧
     delete_todo ⟨[⟨1, "a", none, 3, false, none, none⟩], []⟩ (-1) =
      ⟨[⟨1, "a", none, 3, false, none, none⟩], []⟩) :=
  ⟨c9_out_of_range_noop _ 5 (by decide), c9_out_of_range_noop _ (-1) (by decide)⟩

theorem toggleAt_length (l : List TodoItem) (n : Nat) : (toggleAt l n).length = l.length := by
  induction l generalizing n with
  | nil => rfl
  | cons x xs ih =>
    cases n with
    | zero => rfl
    | succ n => simp [toggleAt, ih]

theorem toggleAt_getD_ne (l : List TodoItem) (n k : Nat) (hk : k ≠ n) (d : TodoItem) :
    (toggleAt l n).getD k d = l.getD k d := by
  induction l generalizing n k with
  | nil => rfl
  | cons x xs ih =>
    cases n with
    | zero =>
      cases k with
      | zero => exact absurd rfl hk
      | succ k => rfl
    | succ n =>
      cases k with
      | zero => rfl
      | succ k =>
        simp only [toggleAt, List.getD_cons_succ]
        exact ih n k (fun hkn => hk (by rw [hkn]))

theorem toggleAt_getD_eq (l : List TodoItem) (n : Nat) (hn : n < l.length) (d : TodoItem) :
    (toggleAt l n).getD n d =
      { l.getD n d with completed := !(l.getD n d).completed } := by
  induction l generalizing n with
  | nil => simp at hn
  | cons x xs ih =>
    cases n with
    | zero => rfl
    | succ n =>
      simp only [toggleAt, List.getD_cons_succ]
      exact ih n (by simpa using hn)

/-- C10 (confirmed): an in-bounds `toggle_complete i` keeps the length,
leaves every other position untouched, replaces position `i` by the same
item with only its `completed` flag negated (so its title, deadline,
priority, id and time block are unchanged), and persists the updated
list. -/
theorem c10_toggle_complete_frame (st : ManagerState) (i : Int)
    (h : 0 ≤ i ∧ i < (st.todos.length : Int)) :
    (toggle_complete st i).todos.length = st.todos.length ∧
    (∀ k : Nat, k ≠ i.toNat →
      (toggle_complete st i).todos.getD k default = st.todos.getD k default) ∧
    (toggle_complete st i).todos.getD i.toNat default =
      { st.todos.getD i.toNat default with
          completed := !(st.todos.getD i.toNat default).completed } ∧
    (toggle_complete st i).file = (toggle_complete st i).todos.map TodoItem.to_dict := by
  unfold toggle_complete
  rw [if_pos h]
  refine ⟨toggleAt_length _ _, fun k hk => toggleAt_getD_ne _ _ _ hk _,
    toggleAt_getD_eq _ _ (by omega) _, rfl⟩

/-- Sample items and store for concrete witnesses. -/
def wItemA : TodoItem := ⟨1, "task a", none, 3, false, none, none⟩

def wItemB : TodoItem := ⟨2, "task b", some ⟨2023, 5, 1, 0, 0, 0, 0⟩, 2, true, none, none⟩

def wStore : ManagerState := ⟨[wItemA, wItemB], []⟩

/-- Witness for C10 at the concrete two-item store, index 0. -/
theorem c10_toggle_complete_frame_witness :
    (toggle_complete wStore 0).todos.length = wStore.todos.length ∧
    (∀ k : Nat, k ≠ (0 : Int).toNat →
      (toggle_complete wStore 0).todos.getD k default = wStore.todos.getD k default) ∧
    (toggle_complete wStore 0).todos.getD (0 : Int).toNat default =
      { wStore.todos.getD (0 : Int).toNat default with
          completed := !(wStore.todos.getD (0 : Int).toNat default).completed } ∧
    (toggle_complete wStore 0).file = (toggle_complete wStore 0).todos.map TodoItem.to_dict :=
  c10_toggle_complete_frame wStore 0 (by decide)

/-! ### Listing, serialization round-trip, loading -/

/-- C3 (code bug): `list_todos` passes `reverse=sort_by != "priority"` to
the sort, so the `"deadline"`, `"time"` and default/id orders all come out
DESCENDING, with sentinel-max (absent-deadline / absent-start) items FIRST
- the opposite of the claim and of the source's own comments, which say
absent items go last. Evaluated at concrete stores: an absent-deadline item
precedes a dated one, a later deadline precedes an earlier one, an
absent-start item precedes a blocked one, and ids come out descending. -/
theorem c3_list_todos_reverse_bug :
    list_todos [⟨1, "A", some ⟨2023, 1, 1, 0, 0, 0, 0⟩, 3, false, none, none⟩,
                ⟨2, "B", none, 3, false, none, none⟩] "deadline" =
      [⟨2, "B", none, 3, false, none, none⟩,
       ⟨1, "A", some ⟨2023, 1, 1, 0, 0, 0, 0⟩, 3, false, none, none⟩] ∧
    list_todos [⟨1, "C", some ⟨2023, 1, 1, 0, 0, 0, 0⟩, 3, false, none, none⟩,
                ⟨2, "D", some ⟨2024, 1, 1, 0, 0, 0, 0⟩, 3, false, none, none⟩] "deadline" =
      [⟨2, "D", some ⟨2024, 1, 1, 0, 0, 0, 0⟩, 3, false, none, none⟩,
       ⟨1, "C", some ⟨2023, 1, 1, 0, 0, 0, 0⟩, 3, false, none, none⟩] ∧
    list_todos [⟨1, "E", none, 3, false, some ⟨2023, 1, 1, 9, 0, 0, 0⟩,
                  some ⟨2023, 1, 1, 10, 0, 0, 0⟩⟩,
                ⟨2, "F", none, 3, false, none, none⟩] "time" =
      [⟨2, "F", none, 3, false, none, none⟩,
       ⟨1, "E", none, 3, false, some ⟨2023, 1, 1, 9, 0, 0, 0⟩,
          some ⟨2023, 1, 1, 10, 0, 0, 0⟩⟩] ∧
    list_todos [⟨1, "G", none, 3, false, none, none⟩,
                ⟨2, "H", none, 3, false, none, none⟩] "id" =
      [⟨2, "H", none, 3, false, none, none⟩, ⟨1, "G", none, 3, false, none, none⟩] := by
  decide

/-- Serialization samples: one item with all optional fields set, one with
none set. -/
def sampleFull : TodoItem :=
  ⟨1, "write report", some ⟨2023, 12, 31, 0, 0, 0, 0⟩, 2, true,
    some ⟨2023, 12, 31, 14, 0, 0, 0⟩, some ⟨2023, 12, 31, 15, 30, 0, 0⟩⟩

def sampleBare : TodoItem := ⟨7, "rest", none, 3, false, none, none⟩

/-- C4 (code bug): `from_dict` never reads the record's `"id"` field
(although `to_dict` writes it); the rebuilt item takes a fresh identity
from `id(self)`, so the round-trip restores every field EXCEPT `id`, and
since the original object is still alive the fresh identity necessarily
differs, making `deserialize(serialize(item)) == item` false. -/
theorem c4_round_trip_loses_id :
    (∀ fid : Nat, TodoItem.from_dict (TodoItem.to_dict sampleFull) fid =
      .ok { sampleFull with id := fid }) ∧
    (∀ fid : Nat, TodoItem.from_dict (TodoItem.to_dict sampleBare) fid =
      .ok { sampleBare with id := fid }) ∧
    ({ sampleFull with id := 2 } ≠ sampleFull ∧
      TodoItem.from_dict (TodoItem.to_dict sampleFull) 2 = .ok { sampleFull with id := 2 }) ∧
    ({ sampleBare with id := 8 } ≠ sampleBare ∧
      TodoItem.from_dict (TodoItem.to_dict sampleBare) 8 = .ok { sampleBare with id := 8 }) :=
  ⟨fun _ => rfl, fun _ => rfl, ⟨by decide, rfl⟩, ⟨by decide, rfl⟩⟩

/-- C5 (corrected): a missing snapshot file and content that is not
decodable JSON both give the empty list, but valid JSON whose records are
not well-formed is NOT handled: rebuilding raises (e.g. `[{}]` hits a
`KeyError` for `"title"`), while a well-formed record list loads. -/
theorem c5_load_todos_error_handling :
    load_todos Snapshot.missing = .ok [] ∧
    load_todos Snapshot.invalidJson = .ok [] ∧
    load_todos (Snapshot.parsed (Json.arr [Json.obj []])) = .error "KeyError: title" ∧
    load_todos (Snapshot.parsed (Json.arr [TodoItem.to_dict wItemB])) =
      .ok [{ wItemB with id := 0 }] :=
  ⟨rfl, rfl, rfl, rfl⟩

/-- C5 counterexample: `[{}]` decodes as JSON but is not a well-formed item
record; the claim says load still returns the empty sequence, but the
source raises instead of returning a value. -/
theorem c5_counterexample_malformed_record :
    load_todos (Snapshot.parsed (Json.arr [Json.obj []])) ≠ .ok [] := by
  intro h
  exact Except.noConfusion h
